import Mathlib

/-!
Shallow embedding of the conversation engine of the scam-honeypot service
(`src/app.py`): scam classification (`detect_scam`), staged fallback reply
selection (`get_fallback_response`), the generation retry loop of
`generate_agent_response`, intelligence extraction (`extract_intelligence`,
including faithful models of its four regular-expression scans), the callback
payload of `send_final_callback`, and the per-turn session/callback state
machine of the `/honeypot` endpoint.

External effects are made explicit parameters: the classification model call
is an `Option String` (`none` = raised exception), generation attempts are an
oracle `Nat → AttemptResult`, `random.choice` is an injected index, and the
return value of the callback POST is a `Bool` parameter that — exactly as in
the source — is never consulted.

Python `\w` (`str` patterns) is modelled on its ASCII fragment
(alphanumerics and underscore); every string the development evaluates is
ASCII, and no theorem depends on the non-ASCII behaviour of `\w`, `lower` or
`upper`.
-/

namespace ScamHoneypot

/-- Boolean test that the first list is a leading segment of the second. -/
def leadsWith : List Char → List Char → Bool
  | [], _ => true
  | _ :: _, [] => false
  | a :: as, b :: bs => (a == b) && leadsWith as bs

/-- Boolean substring containment on character lists. -/
def containsSub (needle : List Char) : List Char → Bool
  | [] => needle.isEmpty
  | c :: rest => leadsWith needle (c :: rest) || containsSub needle rest

/-- `strContains hay needle` models the Python expression `needle in hay`
for strings. -/
def strContains (hay needle : String) : Bool :=
  containsSub needle.data hay.data

/-- ASCII lower-casing of one character (the fragment of Python `str.lower`
the development uses; all evaluated strings are ASCII). -/
def lowerChar (c : Char) : Char :=
  if 65 ≤ c.toNat ∧ c.toNat ≤ 90 then Char.ofNat (c.toNat + 32) else c

/-- ASCII upper-casing of one character. -/
def upperChar (c : Char) : Char :=
  if 97 ≤ c.toNat ∧ c.toNat ≤ 122 then Char.ofNat (c.toNat - 32) else c

/-- Python `text.lower()` (ASCII fragment). -/
def lowerStr (s : String) : String := ⟨s.data.map lowerChar⟩

/-- Python `text.upper()` (ASCII fragment). -/
def upperStr (s : String) : String := ⟨s.data.map upperChar⟩

/-- ASCII whitespace, as stripped by Python `str.strip` and split on by
`str.split()`: space, tab, newline, carriage return, vertical tab, form
feed. -/
def isSpaceChar (c : Char) : Bool :=
  c.toNat = 32 || c.toNat = 9 || c.toNat = 10 || c.toNat = 13 ||
    c.toNat = 11 || c.toNat = 12

/-- Python `text.strip()`: drop leading and trailing whitespace. -/
def stripChars (l : List Char) : List Char :=
  ((l.dropWhile isSpaceChar).reverse.dropWhile isSpaceChar).reverse

/-- Python `text.strip()` on strings. -/
def stripStr (s : String) : String := ⟨stripChars s.data⟩

/-- The fraud-indicator lexicon `SCAM_KEYWORDS` of `src/app.py`. -/
def SCAM_KEYWORDS : List String := [
  "urgent", "blocked", "verify", "suspended", "account",
  "upi", "send money", "click here", "expire", "prize",
  "winner", "lottery", "otp", "password",
  "won", "winning", "lucky draw", "congratulations",
  "selected", "chosen", "reward", "gift", "jackpot",
  "bumper prize", "cash prize", "lucky winner",
  "immediately", "deadline", "today only", "last chance",
  "warning", "alert", "notice", "attention", "act now",
  "deactivated", "expiry", "limited time",
  "transfer", "deposit", "payment required",
  "verification fee", "processing fee", "registration fee",
  "customs duty", "tax payment", "advance fee",
  "refund pending", "cashback",
  "police", "court", "arrest", "warrant", "legal action",
  "cyber cell", "cbi", "income tax", "it department",
  "government scheme", "pm scheme", "rbi", "sebi",
  "kyc", "kyc update", "kyc expired",
  "aadhaar", "aadhar", "pan card",
  "share otp", "verify otp", "pin", "cvv",
  "paytm", "phonepe", "gpay", "google pay", "bhim",
  "neft", "imps", "rtgs",
  "sim blocked", "sim card", "jio", "airtel", "bsnl",
  "free recharge", "talktime",
  "job offer", "work from home", "part time job",
  "earn daily", "guaranteed returns",
  "double your money", "trading profit",
  "parcel stuck", "package held", "customs clearance",
  "delivery fee", "amazon offer", "flipkart winner",
  "insurance maturity", "lic policy", "policy bonus",
  "pf withdrawal", "provident fund",
  "loan approved", "pre-approved loan", "credit card offer",
  "click the link", "visit now", "download now",
  "install", "activate"]

/-- `keyword_count` of `detect_scam`: the number of lexicon entries contained
in the lower-cased message text. -/
def keywordCount (message_text : String) : Nat :=
  (SCAM_KEYWORDS.filter (fun kw => strContains (lowerStr message_text) kw)).length

/-- Parsing of the external model answer in `detect_scam`:
`"SCAM" in response.text.strip().upper()`. -/
def modelSaysScam (resp : String) : Bool :=
  strContains (upperStr (stripStr resp)) "SCAM"

/-- `detect_scam` of `src/app.py`. The external model call is the explicit
argument `modelResponse`: `some resp` is the text the call returned, `none`
is any raised exception (caught by the broad `except`, which falls back to
`keyword_count >= 1`). -/
def detect_scam (message_text : String) (modelResponse : Option String) : Bool :=
  let keyword_count := keywordCount message_text
  if 2 ≤ keyword_count then true
  else if keyword_count = 1 then true
  else
    match modelResponse with
    | some resp => modelSaysScam resp
    | none => decide (1 ≤ keyword_count)

/-- `FALLBACK_STAGE_1` of `src/app.py`. -/
def FALLBACK_STAGE_1 : List String := [
  "Oh my God! I\x27m so scared! What should I do exactly?",
  "Please help me! I don\x27t understand what is happening to my account!",
  "This is so stressful! Can you guide me step by step?",
  "I\x27m very worried! Will I really lose everything if I don\x27t act now?",
  "Arey bhai! Kya ho raha hai mere account ke saath? Please help me!",
  "I never faced this before! Please tell me exactly what to do!",
  "My family uses this account! How do I fix this urgently?"]

/-- `FALLBACK_STAGE_2` of `src/app.py`. -/
def FALLBACK_STAGE_2 : List String := [
  "You seem so knowledgeable about this! Which account exactly should I use?",
  "I trust you completely. What is the fastest way to resolve this problem?",
  "Please give me your direct number so I can call you and confirm everything.",
  "You are the only one helping me right now! What are the exact next steps?",
  "I want to do this correctly. Can you share the exact details with me?",
  "How much exactly do I need to send? I want to do the right amount.",
  "Which is the safest way to pay? Paytm ya bank transfer karun?"]

/-- `FALLBACK_STAGE_3` of `src/app.py`. -/
def FALLBACK_STAGE_3 : List String := [
  "I am ready to send right now! What is your exact UPI ID please?",
  "Please give me your phone number so I can transfer directly to you.",
  "Which account number should I use for this transfer?",
  "I have the money ready in my phone. Just tell me where exactly to send.",
  "Should I use PhonePe or GPay? What is your UPI ID?",
  "I will do it immediately! Just confirm your payment details once more.",
  "Give me the exact UPI ID and I will send it in 2 minutes!"]

/-- The pool `get_fallback_response` draws from for a given scammer-message
count (the branch `message_count <= 1` / `<= 4` / else). -/
def fallbackPool (message_count : Nat) : List String :=
  if message_count ≤ 1 then FALLBACK_STAGE_1
  else if message_count ≤ 4 then FALLBACK_STAGE_2
  else FALLBACK_STAGE_3

/-- `get_fallback_response` of `src/app.py`: `random.choice` over the stage
pool, with the random draw injected as the index `rand`. -/
def get_fallback_response (rand : Nat) (message_count : Nat) : String :=
  (fallbackPool message_count).getD (rand % (fallbackPool message_count).length) ""

/-- The stage of the strategic prompt chosen inside `generate_agent_response`
(the branch `message_count <= 1` / `<= 3` / else). -/
def strategyStage (message_count : Nat) : Nat :=
  if message_count ≤ 1 then 1 else if message_count ≤ 3 then 2 else 3

/-- A conversation message: the `sender`/`text` fields of the `Message`
model that the engine logic reads (the timestamp is never consulted by the
core). -/
structure Msg where
  sender : String
  text : String
deriving DecidableEq, Repr

/-- `len([m for m in history if m.sender == "scammer"])` of
`generate_agent_response`. -/
def scammerCount (history : List Msg) : Nat :=
  (history.filter (fun m => m.sender == "scammer")).length

/-- A double or single quote character, removed from model replies. -/
def isQuoteChar (c : Char) : Bool := c.toNat = 34 || c.toNat = 39

/-- Post-processing of a raw model reply in `generate_agent_response`:
`response.text.strip()`, removal of every quote character, `strip()`. -/
def cleanReply (raw : String) : String :=
  stripStr ⟨(stripStr raw).data.filter (fun c => !isQuoteChar c)⟩

/-- Helper for `wordCount`: maximal non-whitespace runs of a character
list, accumulating the current run reversed. -/
def wordsAux : List Char → List Char → List (List Char)
  | acc, [] => if acc.isEmpty then [] else [acc.reverse]
  | acc, c :: rest =>
      if isSpaceChar c then
        if acc.isEmpty then wordsAux [] rest else acc.reverse :: wordsAux [] rest
      else wordsAux (c :: acc) rest

/-- `len(reply.split())`: the number of whitespace-separated words. -/
def wordCount (s : String) : Nat := (wordsAux [] s.data).length

/-- Outcome of one `model.generate_content` attempt inside
`generate_agent_response`: a returned text, a content-filter finish
(`finish_reason == 8`), an exception whose text contains quota or 429, or
any other exception. -/
inductive AttemptResult
  | ok (text : String)
  | filtered
  | quotaErr
  | otherErr
deriving DecidableEq, Repr

/-- The retry loop of `generate_agent_response` (`for attempt in
range(len(ALL_GEMINI_KEYS) + 1)`), returning `some reply` when a usable
model reply is produced and `none` on every path that falls back to
`get_fallback_response`. `nkeys` is `len(ALL_GEMINI_KEYS)`; `oracle i` is
the outcome of the i-th attempt; on a quota error `get_next_gemini_key`
switches keys exactly when more than one key is configured, and a failed
switch breaks the loop. -/
def genLoop (nkeys : Nat) (oracle : Nat → AttemptResult) : Nat → Nat → Option String
  | 0, _ => none
  | fuel + 1, i =>
    match oracle i with
    | .ok raw =>
        let reply := cleanReply raw
        if wordCount reply < 5 then none else some reply
    | .filtered => none
    | .quotaErr => if nkeys ≤ 1 then none else genLoop nkeys oracle fuel (i + 1)
    | .otherErr => none

/-- `generate_agent_response` of `src/app.py` with its effects made
explicit: the number of configured keys, the attempt oracle, and the random
index used by `get_fallback_response`. -/
def generate_agent_response (nkeys : Nat) (oracle : Nat → AttemptResult)
    (rand : Nat) (history : List Msg) : String :=
  let message_count := scammerCount history
  match genLoop nkeys oracle (nkeys + 1) 0 with
  | some reply => reply
  | none => get_fallback_response rand message_count

/-- ASCII digit test (regex `\d` on ASCII input). -/
def isDigitChar (c : Char) : Bool := 48 ≤ c.toNat && c.toNat ≤ 57

/-- ASCII fragment of the regex class `\w`: alphanumerics and underscore. -/
def isWordChar (c : Char) : Bool :=
  (48 ≤ c.toNat && c.toNat ≤ 57) || (65 ≤ c.toNat && c.toNat ≤ 90) ||
    (97 ≤ c.toNat && c.toNat ≤ 122) || c.toNat = 95

/-- `isWordChar` on an optional character (`none` = beyond either end of
the string, never a word character). -/
def isWordOpt : Option Char → Bool
  | none => false
  | some c => isWordChar c

/-- The regex word boundary `\b` between two adjacent positions. -/
def wordBoundary (a b : Option Char) : Bool := isWordOpt a != isWordOpt b

/-- The regex class `[\w.\-]` of the UPI pattern. -/
def isUpiChar (c : Char) : Bool := isWordChar c || c.toNat = 46 || c.toNat = 45

/-- Backtracking of the final greedy `[\w.\-]+` of the UPI pattern against
its trailing `\b`: given the matched run reversed and the character
following it, drop characters from the right until the boundary holds.
Returns the kept run (in order) and the dropped characters (in order). -/
def shrinkRevAux : List Char → Option Char → List Char → Option (List Char × List Char)
  | [], _, _ => none
  | c :: rs, next, dropped =>
      if wordBoundary (some c) next then some ((c :: rs).reverse, dropped)
      else shrinkRevAux rs (some c) (c :: dropped)

/-- One anchored attempt of the UPI pattern `\b[\w.\-]+@[\w.\-]+\b` at the
start of `s`, with `prev` the character before `s`. Returns the matched
characters and the unconsumed rest. The two greedy classes exclude the `@`
(codepoint 64), so shortening either run can never re-satisfy the literal
`@`; only the trailing `\b` backtracks. -/
def matchUpiAt (prev : Option Char) (s : List Char) : Option (List Char × List Char) :=
  if !wordBoundary prev s.head? then none
  else
    let run1 := s.takeWhile isUpiChar
    let rest1 := s.dropWhile isUpiChar
    if run1.isEmpty then none
    else
      match rest1 with
      | a :: rest2 =>
          if a.toNat = 64 then
            let run2 := rest2.takeWhile isUpiChar
            let rest3 := rest2.dropWhile isUpiChar
            if run2.isEmpty then none
            else
              match shrinkRevAux run2.reverse rest3.head? [] with
              | some (kept, dropped) => some (run1 ++ a :: kept, dropped ++ rest3)
              | none => none
          else none
      | [] => none

/-- One anchored attempt of the phone pattern `\b[6-9]\d{9}\b`
(10 digits, first in 6–9; the counted repetition never backtracks). -/
def matchPhoneAt (prev : Option Char) (s : List Char) : Option (List Char × List Char) :=
  match s with
  | [] => none
  | c :: rest =>
      if wordBoundary prev (some c) && (54 ≤ c.toNat && c.toNat ≤ 57) then
        let d9 := rest.take 9
        let rest9 := rest.drop 9
        if d9.length = 9 && d9.all isDigitChar then
          if wordBoundary ((c :: d9).getLast?) rest9.head? then
            some (c :: d9, rest9)
          else none
        else none
      else none

/-- The regex class `[^\s<>"\x27]` of the URL pattern. -/
def isUrlChar (c : Char) : Bool :=
  !(isSpaceChar c || c.toNat = 60 || c.toNat = 62 || c.toNat = 34 || c.toNat = 39)

/-- One anchored attempt of `https?://` against a scheme prefix followed by
the greedy unconstrained run `[^\s<>"\x27]+`. -/
def matchSchemeAt (scheme : List Char) (s : List Char) : Option (List Char × List Char) :=
  if leadsWith scheme s then
    let rest := s.drop scheme.length
    let run := rest.takeWhile isUrlChar
    if run.isEmpty then none
    else some (scheme ++ run, rest.drop run.length)
  else none

/-- One anchored attempt of the URL pattern `https?://[^\s<>"\x27]+`: the
greedy `s?` tries `https://` first, then `http://`. -/
def matchUrlAt (_prev : Option Char) (s : List Char) : Option (List Char × List Char) :=
  match matchSchemeAt "https://".data s with
  | some r => some r
  | none => matchSchemeAt "http://".data s

/-- One anchored attempt of the bank-account pattern `\b\d{11,18}\b`.
Shortening the greedy digit run always leaves a digit as the next
character, which fails the trailing `\b`; so a match exists exactly when
the full digit run has length 11–18 and both ends sit on word boundaries. -/
def matchBankAt (prev : Option Char) (s : List Char) : Option (List Char × List Char) :=
  if !wordBoundary prev s.head? then none
  else
    let digits := s.takeWhile isDigitChar
    let rest := s.dropWhile isDigitChar
    if 11 ≤ digits.length && digits.length ≤ 18 then
      if wordBoundary digits.getLast? rest.head? then some (digits, rest) else none
    else none

/-- `re.findall` driver: try an anchored match at every position from left
to right; on a match emit it and continue right after it, otherwise advance
one character. `prev` tracks the character before the current position for
`\b`. Every match of the patterns above is nonempty, so `length + 1` fuel
never runs out. -/
def scanAux (matchAt : Option Char → List Char → Option (List Char × List Char)) :
    Nat → Option Char → List Char → List String
  | 0, _, _ => []
  | _ + 1, _, [] => []
  | fuel + 1, prev, c :: rest =>
      match matchAt prev (c :: rest) with
      | some (m, rest2) => (⟨m⟩ : String) :: scanAux matchAt fuel m.getLast? rest2
      | none => scanAux matchAt fuel (some c) rest

/-- `re.findall pattern s` for the anchored matcher `matchAt`. -/
def findall (matchAt : Option Char → List Char → Option (List Char × List Char))
    (s : String) : List String :=
  scanAux matchAt (s.data.length + 1) none s.data

/-- The `intel` record built by `extract_intelligence` (its five keys, in
source order: bankAccounts, upiIds, phishingLinks, phoneNumbers,
suspiciousKeywords). -/
structure Intel where
  bankAccounts : List String
  upiIds : List String
  phishingLinks : List String
  phoneNumbers : List String
  suspiciousKeywords : List String
deriving DecidableEq, Repr

/-- The keyword list of the `suspiciousKeywords` rule inside
`extract_intelligence` (distinct from `SCAM_KEYWORDS`). -/
def INTEL_KEYWORDS : List String := [
  "urgent", "verify", "blocked", "suspended", "immediately",
  "account", "bank", "OTP", "password", "expire", "confirm",
  "prize", "winner", "lottery", "kyc", "aadhaar", "upi",
  "transfer", "send money", "arrest", "police", "warrant"]

/-- `extract_intelligence` of `src/app.py`. `list(set(..))` is modelled by
`List.dedup`; the four regex scans are the anchored matchers above. -/
def extract_intelligence (full_conversation : String) : Intel :=
  let upi_matches := findall matchUpiAt full_conversation
  let upiIds := (upi_matches.filter (fun u =>
      strContains u "@" &&
      !strContains (lowerStr u) "@gmail" &&
      !strContains (lowerStr u) "@yahoo" &&
      !strContains (lowerStr u) "@hotmail" &&
      !strContains (lowerStr u) "@outlook")).dedup
  let phoneNumbers := (findall matchPhoneAt full_conversation).dedup
  let phishingLinks := (findall matchUrlAt full_conversation).dedup
  let potential_accounts := findall matchBankAt full_conversation
  let bankAccounts := (potential_accounts.filter
      (fun acc => !phoneNumbers.contains acc)).dedup
  let suspiciousKeywords := (INTEL_KEYWORDS.filter
      (fun kw => strContains (lowerStr full_conversation) (lowerStr kw))).dedup
  { bankAccounts := bankAccounts, upiIds := upiIds,
    phishingLinks := phishingLinks, phoneNumbers := phoneNumbers,
    suspiciousKeywords := suspiciousKeywords }

/-- The `intel` dictionary of `extract_intelligence` as key/value pairs, in
the literal order of the source. -/
def intelDict (i : Intel) : List (String × List String) :=
  [("bankAccounts", i.bankAccounts), ("upiIds", i.upiIds),
   ("phishingLinks", i.phishingLinks), ("phoneNumbers", i.phoneNumbers),
   ("suspiciousKeywords", i.suspiciousKeywords)]

/-- The per-session dictionary stored in `sessions`, with the fields and
defaults of its initialiser in `honeypot_endpoint`. -/
structure SessionData where
  scam_detected : Bool
  history : List Msg
  message_count : Nat
  notes : String
  callback_sent : Bool
deriving DecidableEq, Repr

/-- The fresh session entry created for a previously-unseen session id. -/
def initSession : SessionData :=
  { scam_detected := false, history := [], message_count := 0,
    notes := "", callback_sent := false }

/-- A JSON-like value of the callback payload. -/
inductive JVal
  | s (v : String)
  | b (v : Bool)
  | n (v : Nat)
  | record (v : Intel)
deriving Repr

/-- The `full_conv` string of `send_final_callback`: the session history
joined by newlines as `sender: text`. -/
def fullConv : List Msg → String
  | [] => ""
  | [m] => m.sender ++ ": " ++ m.text
  | m :: m2 :: rest => m.sender ++ ": " ++ m.text ++ "\n" ++ fullConv (m2 :: rest)

/-- The `payload` dictionary of `send_final_callback`, as key/value pairs
in the literal order of the source. The `notes` key is present on every
session (initialised to the empty string), so the `session_data.get`
default never applies; the result of the network POST is not part of the
payload. -/
def send_final_callback_payload (session_id : String) (sd : SessionData) :
    List (String × JVal) :=
  let intel := extract_intelligence (fullConv sd.history)
  [("sessionId", JVal.s session_id),
   ("scamDetected", JVal.b sd.scam_detected),
   ("totalMessagesExchanged", JVal.n sd.history.length),
   ("extractedIntelligence", JVal.record intel),
   ("agentNotes", JVal.s sd.notes)]

/-- The outcome of one `/honeypot` turn (the handler body after request
parsing and API-key validation): the updated session, the response status
and reply, and the number of callback dispatches attempted. -/
structure TurnResult where
  session : SessionData
  status : String
  reply : String
  callbacks : Nat
deriving DecidableEq, Repr

/-- One turn of `honeypot_endpoint` on an existing session state for an
inbound message `msg`. External effects are explicit arguments:
`classifierResult` is the value `detect_scam` returns (the handler consults
it only on the first message), `agentReply` is the value
`generate_agent_response` returns, and `sendResult` is the value returned
by `send_final_callback` — which the handler, exactly as in the source,
never reads. -/
def honeypotTurn (classifierResult : Bool) (agentReply : String)
    (sendResult : Bool) (msg : Msg) (s : SessionData) : TurnResult :=
  let s1 : SessionData :=
    { s with history := s.history ++ [msg], message_count := s.message_count + 1 }
  let msg_count := s1.message_count
  let s2 : SessionData :=
    if msg_count = 1 then { s1 with scam_detected := classifierResult } else s1
  if msg_count = 1 && !s2.scam_detected then
    { session := s2, status := "success",
      reply := "Thank you for your message.", callbacks := 0 }
  else
    let s3 : SessionData :=
      { s2 with history := s2.history ++ [{ sender := "user", text := agentReply }] }
    if s3.scam_detected then
      if 3 ≤ msg_count && !s3.callback_sent then
        { session := { s3 with callback_sent := true }, status := "success",
          reply := agentReply, callbacks := 1 }
      else if 8 ≤ msg_count && msg_count % 5 = 0 then
        { session := s3, status := "success", reply := agentReply, callbacks := 1 }
      else
        { session := s3, status := "success", reply := agentReply, callbacks := 0 }
    else
      { session := s3, status := "success", reply := agentReply, callbacks := 0 }

/-- The session state after `k` inbound turns of one session:
`classifierResult` is the first-turn classification and `msgs k`, `reps k`,
`sends k` are the inbound message, generated reply, and callback POST
outcome of turn `k + 1`. -/
def runSession (classifierResult : Bool) (msgs : Nat → Msg) (reps : Nat → String)
    (sends : Nat → Bool) : Nat → SessionData
  | 0 => initSession
  | k + 1 =>
    (honeypotTurn classifierResult (reps k) (sends k) (msgs k)
      (runSession classifierResult msgs reps sends k)).session

/-- The number of callback dispatches attempted on the `n`-th inbound turn
of the session (turn counts start at 1; `firedAt .. 0 = 0`). -/
def firedAt (classifierResult : Bool) (msgs : Nat → Msg) (reps : Nat → String)
    (sends : Nat → Bool) : Nat → Nat
  | 0 => 0
  | k + 1 =>
    (honeypotTurn classifierResult (reps k) (sends k) (msgs k)
      (runSession classifierResult msgs reps sends k)).callbacks

/-! ## Theorems -/

/-- C1: if the lower-cased message text contains at least one (so also at
least two) distinct scam-lexicon keywords, `detect_scam` returns true
whatever the external model call would return or raise — the model is not
consulted; with zero keyword matches the external model answer decides,
and a failed call (any exception, `none`) yields false, the degraded
decision `keyword_count >= 1` evaluated at count 0. -/
theorem c1_keyword_decision (text : String) :
    (1 ≤ keywordCount text → ∀ m : Option String, detect_scam text m = true) ∧
    (keywordCount text = 0 →
      ∀ resp : String, detect_scam text (some resp) = modelSaysScam resp) ∧
    (keywordCount text = 0 → detect_scam text none = false) := by
  unfold detect_scam
  refine ⟨fun h m => ?_, fun h resp => ?_, fun h => ?_⟩
  · rcases Nat.lt_or_ge (keywordCount text) 2 with h2 | h2
    · have h1 : keywordCount text = 1 := by omega
      simp [h1]
    · simp [h2]
  · simp [h]
  · simp [h]

/-- Witness for C1 at concrete messages: "urgent" has one keyword match
and is classified scam with no model consulted; "hello how are you" has
none and is classified safe when the model call raises. -/
theorem c1_keyword_decision_witness :
    (1 ≤ keywordCount "urgent" ∧ detect_scam "urgent" none = true) ∧
    (keywordCount "hello how are you" = 0 ∧
      detect_scam "hello how are you" none = false) :=
  ⟨⟨by decide, (c1_keyword_decision "urgent").1 (by decide) none⟩,
   ⟨by decide, (c1_keyword_decision "hello how are you").2.2 (by decide)⟩⟩

/-- C7: fallback-pool selection is a function of the scammer-authored turn
count: a count of 0 or 1 selects the stage-1 pool (and the stage-1
strategy), a count in 2–4 the stage-2 pool, and a count of 5 or more the
stage-3 pool. -/
theorem c7_stage_boundaries (mc : Nat) :
    (mc ≤ 1 → fallbackPool mc = FALLBACK_STAGE_1 ∧ strategyStage mc = 1) ∧
    (2 ≤ mc → mc ≤ 4 → fallbackPool mc = FALLBACK_STAGE_2) ∧
    (5 ≤ mc → fallbackPool mc = FALLBACK_STAGE_3) := by
  unfold fallbackPool strategyStage
  refine ⟨fun h => ?_, fun h2 h4 => ?_, fun h5 => ?_⟩
  · simp [h]
  · rw [if_neg (by omega), if_pos h4]
  · rw [if_neg (by omega), if_neg (by omega)]

/-- Witness for C7 at the boundary counts 1, 2, 4 and 5. -/
theorem c7_stage_boundaries_witness :
    (1 ≤ (1 : Nat) ∧ fallbackPool 1 = FALLBACK_STAGE_1 ∧ strategyStage 1 = 1) ∧
    fallbackPool 2 = FALLBACK_STAGE_2 ∧ fallbackPool 4 = FALLBACK_STAGE_2 ∧
    fallbackPool 5 = FALLBACK_STAGE_3 :=
  ⟨⟨by decide, (c7_stage_boundaries 1).1 (by decide)⟩,
   (c7_stage_boundaries 2).2.1 (by decide) (by decide),
   (c7_stage_boundaries 4).2.1 (by decide) (by decide),
   (c7_stage_boundaries 5).2.2 (by decide)⟩

/-- C4 counterexample: a cleaned model reply of at least five words and no
question mark is returned by `generate_agent_response` exactly as it came
back — no canned question is appended, so a returned generated reply can
lack a question mark. -/
theorem c4_no_question_repair_counterexample :
    generate_agent_response 1
        (fun _ => AttemptResult.ok "I am very scared right now sir") 0
        [{ sender := "scammer", text := "hi" }] =
      "I am very scared right now sir" ∧
    strContains "I am very scared right now sir" "?" = false := by
  constructor
  · decide
  · decide

/-- C4 as amended: accepted model replies are post-processed only by
trimming and quote removal; whenever the first attempt returns text whose
cleaned form has at least five words, `generate_agent_response` returns
that cleaned text unchanged, question mark or not. Replies under five
words are discarded for the fallback pool instead. -/
theorem c4_accepted_reply_verbatim (nkeys rand : Nat)
    (oracle : Nat → AttemptResult) (history : List Msg) (raw : String)
    (h0 : oracle 0 = AttemptResult.ok raw)
    (h5 : 5 ≤ wordCount (cleanReply raw)) :
    generate_agent_response nkeys oracle rand history = cleanReply raw := by
  unfold generate_agent_response
  simp only [genLoop, h0]
  rw [if_neg (by omega)]

/-- Witness for C4 as amended: a seven-word cleaned reply is returned
verbatim. -/
theorem c4_accepted_reply_verbatim_witness :
    (fun _ : Nat => AttemptResult.ok "I promise I will pay you sir") 0 =
        AttemptResult.ok "I promise I will pay you sir" ∧
    5 ≤ wordCount (cleanReply "I promise I will pay you sir") ∧
    generate_agent_response 2
        (fun _ => AttemptResult.ok "I promise I will pay you sir") 1
        [{ sender := "scammer", text := "pay" }] =
      cleanReply "I promise I will pay you sir" :=
  ⟨rfl, by decide,
    c4_accepted_reply_verbatim 2 1 _ _ _ rfl (by decide)⟩

/-- C9 counterexample: the callback payload of `send_final_callback` has no
`engagementDurationSeconds` key. -/
theorem c9_no_duration_field_counterexample :
    "engagementDurationSeconds" ∉
      (send_final_callback_payload "final-test-001"
        { scam_detected := true, history := [], message_count := 3,
          notes := "", callback_sent := true }).map Prod.fst := by
  decide

/-- C9 as amended: every callback payload contains exactly the keys
`sessionId`, `scamDetected`, `totalMessagesExchanged`,
`extractedIntelligence` and `agentNotes`, in this order — there is no
`engagementDurationSeconds` field. -/
theorem c9_callback_payload_keys (session_id : String) (sd : SessionData) :
    (send_final_callback_payload session_id sd).map Prod.fst =
      ["sessionId", "scamDetected", "totalMessagesExchanged",
       "extractedIntelligence", "agentNotes"] := rfl

/-- Trajectory invariant of a session whose first message is classified as
scam: after `k` turns the turn counter equals `k`, the scam flag is set
from the first turn on, and the callback-sent flag is set from the third
turn on. -/
theorem runSession_scam_inv (msgs : Nat → Msg) (reps : Nat → String)
    (sends : Nat → Bool) (k : Nat) :
    (runSession true msgs reps sends k).message_count = k ∧
    (runSession true msgs reps sends k).scam_detected = decide (1 ≤ k) ∧
    (runSession true msgs reps sends k).callback_sent = decide (3 ≤ k) := by
  induction k with
  | zero => simp [runSession, initSession]
  | succ k ih =>
    obtain ⟨hc, hs, hb⟩ := ih
    simp only [runSession, honeypotTurn, hc, hs, hb]
    rcases k with _ | _ | _ | k
    · simp
    · simp
    · simp
    · simp
      split <;> simp

/-- C2: on a session whose first message is classified as scam, whatever
the inbound messages, generated replies and callback POST outcomes, a
callback is dispatched on turn `n` exactly when `n = 3` — the only turn
count in `[3,7]` at which one fires — or `n ≥ 8` and `n` is a multiple of
5 (10, 15, 20, …); in particular none fires at 8, 9 or 11–14. -/
theorem c2_callback_schedule (msgs : Nat → Msg) (reps : Nat → String)
    (sends : Nat → Bool) (n : Nat) :
    firedAt true msgs reps sends n =
      if n = 3 ∨ (8 ≤ n ∧ n % 5 = 0) then 1 else 0 := by
  rcases n with _ | k
  · simp [firedAt]
  · obtain ⟨hc, hs, hb⟩ := runSession_scam_inv msgs reps sends k
    simp only [firedAt, honeypotTurn, hc, hs, hb]
    rcases k with _ | _ | _ | k
    · simp
    · simp
    · simp
    · simp
      split <;> simp

/-- C5: on any session state that reaches turn count 3 (counter 2 before
the turn) with the scam flag set and the callback not yet sent, the turn
attempts exactly one callback dispatch and sets `callback_sent` to true;
the turn result is literally independent of the value returned by
`send_final_callback` (the handler never reads it). -/
theorem c5_first_callback_marks_sent (classifierResult : Bool) (msg : Msg)
    (agentReply : String) (sendResult : Bool) (s : SessionData)
    (hscam : s.scam_detected = true) (hcount : s.message_count = 2)
    (hsent : s.callback_sent = false) :
    (honeypotTurn classifierResult agentReply sendResult msg s).callbacks = 1 ∧
    (honeypotTurn classifierResult agentReply sendResult msg s).session.callback_sent
        = true ∧
    (∀ other : Bool, honeypotTurn classifierResult agentReply sendResult msg s =
      honeypotTurn classifierResult agentReply other msg s) := by
  refine ⟨?_, ?_, fun other => rfl⟩ <;> simp [honeypotTurn, hscam, hcount, hsent]

/-- Witness for C5 on a concrete session at its third turn, once with a
successful and once with a failed POST. -/
theorem c5_first_callback_marks_sent_witness :
    ({ scam_detected := true, history := [], message_count := 2, notes := "",
        callback_sent := false } : SessionData).scam_detected = true ∧
    ({ scam_detected := true, history := [], message_count := 2, notes := "",
        callback_sent := false } : SessionData).message_count = 2 ∧
    ({ scam_detected := true, history := [], message_count := 2, notes := "",
        callback_sent := false } : SessionData).callback_sent = false ∧
    (honeypotTurn true "which account?" false { sender := "scammer", text := "pay" }
      { scam_detected := true, history := [], message_count := 2, notes := "",
        callback_sent := false }).callbacks = 1 ∧
    (honeypotTurn true "which account?" true { sender := "scammer", text := "pay" }
      { scam_detected := true, history := [], message_count := 2, notes := "",
        callback_sent := false }).session.callback_sent = true :=
  ⟨rfl, rfl, rfl,
   (c5_first_callback_marks_sent true { sender := "scammer", text := "pay" }
      "which account?" false _ rfl rfl rfl).1,
   (c5_first_callback_marks_sent true { sender := "scammer", text := "pay" }
      "which account?" true _ rfl rfl rfl).2.1⟩

/-- Trajectory invariant of a session whose first message is classified as
non-scam: the scam flag and the callback flag stay false forever. -/
theorem runSession_nonscam_inv (msgs : Nat → Msg) (reps : Nat → String)
    (sends : Nat → Bool) (k : Nat) :
    (runSession false msgs reps sends k).message_count = k ∧
    (runSession false msgs reps sends k).scam_detected = false ∧
    (runSession false msgs reps sends k).callback_sent = false := by
  induction k with
  | zero => simp [runSession, initSession]
  | succ k ih =>
    obtain ⟨hc, hs, hb⟩ := ih
    rw [runSession]
    rcases k with _ | k
    · simp [runSession, honeypotTurn, initSession]
    · simp [honeypotTurn, hc, hs, hb]

/-- A non-scam session never dispatches a callback, on any turn. -/
theorem firedAt_nonscam (msgs : Nat → Msg) (reps : Nat → String)
    (sends : Nat → Bool) (n : Nat) : firedAt false msgs reps sends n = 0 := by
  rcases n with _ | m
  · rfl
  · obtain ⟨hc, hs, hb⟩ := runSession_nonscam_inv msgs reps sends m
    rw [firedAt]
    rcases m with _ | m
    · simp [runSession, honeypotTurn, initSession]
    · simp [honeypotTurn, hc, hs, hb]

/-- C10: when the first message of a session is classified non-scam, the
first turn answers with the fixed acknowledgment and appends no agent
message; every later turn still returns the generated persona reply (and
its result does not depend on the classifier argument — classification is
never re-run); and no turn of the session ever dispatches a callback. -/
theorem c10_nonscam_session (msgs : Nat → Msg) (reps : Nat → String)
    (sends : Nat → Bool) (k : Nat) (hk : 1 ≤ k) :
    (honeypotTurn false (reps 0) (sends 0) (msgs 0) initSession).reply =
        "Thank you for your message." ∧
    (honeypotTurn false (reps 0) (sends 0) (msgs 0) initSession).session.history =
        [msgs 0] ∧
    (∀ c c2 : Bool, honeypotTurn c (reps k) (sends k) (msgs k)
        (runSession false msgs reps sends k) =
      honeypotTurn c2 (reps k) (sends k) (msgs k)
        (runSession false msgs reps sends k)) ∧
    (honeypotTurn false (reps k) (sends k) (msgs k)
        (runSession false msgs reps sends k)).reply = reps k ∧
    (∀ n : Nat, firedAt false msgs reps sends n = 0) := by
  obtain ⟨hc, hs, hb⟩ := runSession_nonscam_inv msgs reps sends k
  have h1 : ¬(k + 1 = 1) := by omega
  refine ⟨by simp [honeypotTurn, initSession], by simp [honeypotTurn, initSession],
    fun c c2 => ?_, ?_, firedAt_nonscam msgs reps sends⟩
  · simp [honeypotTurn, hc, hs, hb, h1]
  · simp [honeypotTurn, hc, hs, hb, h1]

/-- Witness for C10 on a concrete non-scam session driven to its third
turn: acknowledgment on turn 1, persona reply on turn 3, no callback by
turn 5. -/
theorem c10_nonscam_session_witness :
    (1 : Nat) ≤ 2 ∧
    (honeypotTurn false "ok then?" true { sender := "scammer", text := "hello" }
        initSession).reply = "Thank you for your message." ∧
    (honeypotTurn false "ok then?" true { sender := "scammer", text := "hello" }
        (runSession false (fun _ => { sender := "scammer", text := "hello" })
          (fun _ => "ok then?") (fun _ => true) 2)).reply = "ok then?" ∧
    firedAt false (fun _ => { sender := "scammer", text := "hello" })
        (fun _ => "ok then?") (fun _ => true) 5 = 0 :=
  ⟨by decide,
   (c10_nonscam_session (fun _ => { sender := "scammer", text := "hello" })
      (fun _ => "ok then?") (fun _ => true) 2 (by decide)).1,
   (c10_nonscam_session (fun _ => { sender := "scammer", text := "hello" })
      (fun _ => "ok then?") (fun _ => true) 2 (by decide)).2.2.2.1,
   (c10_nonscam_session (fun _ => { sender := "scammer", text := "hello" })
      (fun _ => "ok then?") (fun _ => true) 2 (by decide)).2.2.2.2 5⟩

/-- C3 counterexample: the record `extract_intelligence` returns has no
`emailAddresses` set; a public-provider address in the conversation is
excluded from `upiIds` and collected nowhere. -/
theorem c3_no_email_set_counterexample :
    "emailAddresses" ∉
      (intelDict (extract_intelligence "contact me at fraud@gmail.com please")).map
        Prod.fst ∧
    (extract_intelligence "contact me at fraud@gmail.com please").upiIds = [] := by
  constructor
  · decide
  · decide

/-- C3 as amended: the IntelligenceRecord contains exactly five sets —
bankAccounts, upiIds, phishingLinks, phoneNumbers, suspiciousKeywords —
and no emailAddresses set; tokens whose lower-cased text contains a
public email provider domain (gmail/yahoo/hotmail/outlook) are excluded
from `upiIds` and are not collected in any email set. -/
theorem c3_intel_record_five_sets (t : String) :
    (intelDict (extract_intelligence t)).map Prod.fst =
      ["bankAccounts", "upiIds", "phishingLinks", "phoneNumbers",
        "suspiciousKeywords"] ∧
    (∀ u ∈ (extract_intelligence t).upiIds,
      strContains (lowerStr u) "@gmail" = false ∧
      strContains (lowerStr u) "@yahoo" = false ∧
      strContains (lowerStr u) "@hotmail" = false ∧
      strContains (lowerStr u) "@outlook" = false) := by
  refine ⟨rfl, fun u hu => ?_⟩
  unfold extract_intelligence at hu
  simp only [List.mem_dedup, List.mem_filter, Bool.and_eq_true,
    Bool.not_eq_true'] at hu
  exact ⟨hu.2.1.1.1.2, hu.2.1.1.2, hu.2.1.2, hu.2.2⟩

/-- Witness for C3 as amended on the extracted UPI id of a concrete
conversation. -/
theorem c3_intel_record_five_sets_witness :
    "pay.me@upi" ∈ (extract_intelligence "send to pay.me@upi now").upiIds ∧
    strContains (lowerStr "pay.me@upi") "@gmail" = false :=
  ⟨by decide, ((c3_intel_record_five_sets "send to pay.me@upi now").2 "pay.me@upi"
      (by decide)).1⟩

/-- C6 counterexample: the record `extract_intelligence` returns has no
`emailAddresses` set, so no upiIds/emailAddresses disjointness constraint
can hold of it as stated. -/
theorem c6_no_email_set_counterexample :
    "emailAddresses" ∉
      (intelDict (extract_intelligence "upi help@okaxis phone 9876543210")).map
        Prod.fst := by
  decide

/-- C6 as amended: extraction is deterministic (`extract(t) = extract(t)`),
the bankAccounts and phoneNumbers sets are disjoint, and — there being no
emailAddresses set in the result — the upiIds/emailAddresses disjointness
reduces to the absence of the `emailAddresses` key. -/
theorem c6_extract_idempotent_disjoint (t : String) :
    extract_intelligence t = extract_intelligence t ∧
    (∀ x ∈ (extract_intelligence t).bankAccounts,
        x ∉ (extract_intelligence t).phoneNumbers) ∧
    "emailAddresses" ∉ (intelDict (extract_intelligence t)).map Prod.fst := by
  refine ⟨rfl, fun x hx => ?_, by simp [intelDict]⟩
  unfold extract_intelligence at hx ⊢
  simp only [List.mem_dedup, List.mem_filter, Bool.not_eq_true'] at hx
  simp only [List.mem_dedup]
  have h2 := hx.2
  simp only [List.contains, List.elem_eq_mem, decide_eq_false_iff_not,
    List.mem_dedup] at h2
  exact h2

/-- Witness for C6 as amended on a concrete conversation with a bank
account number. -/
theorem c6_extract_idempotent_disjoint_witness :
    "123456789012" ∈ (extract_intelligence "acct 123456789012").bankAccounts ∧
    "123456789012" ∉ (extract_intelligence "acct 123456789012").phoneNumbers :=
  ⟨by decide, (c6_extract_idempotent_disjoint "acct 123456789012").2.1
      "123456789012" (by decide)⟩

/-- Every stage fallback pool has exactly 7 entries. -/
theorem fallbackPool_length (mc : Nat) : (fallbackPool mc).length = 7 := by
  unfold fallbackPool
  split
  · rfl
  · split <;> rfl

/-- `get_fallback_response` always returns an entry of the stage pool. -/
theorem get_fallback_mem (rand mc : Nat) :
    get_fallback_response rand mc ∈ fallbackPool mc := by
  unfold get_fallback_response
  have hlt : rand % (fallbackPool mc).length < (fallbackPool mc).length := by
    rw [fallbackPool_length]; omega
  rw [List.getD_eq_getElem _ _ hlt]
  exact List.getElem_mem hlt

/-- When every attempt hits a quota error, the retry loop produces no
reply, whatever the fuel and start index. -/
theorem genLoop_quota_none (nkeys : Nat) (oracle : Nat → AttemptResult)
    (hq : ∀ i, oracle i = AttemptResult.quotaErr) (fuel i : Nat) :
    genLoop nkeys oracle fuel i = none := by
  induction fuel generalizing i with
  | zero => rfl
  | succ fuel ih =>
    simp only [genLoop, hq]
    split
    · rfl
    · exact ih (i + 1)

/-- The retry loop consults the attempt oracle only at the indices below
its fuel: oracles that agree there give the same result. -/
theorem genLoop_congr (nkeys : Nat) (oracle oracle2 : Nat → AttemptResult)
    (fuel i : Nat) (h : ∀ j, j < fuel → oracle (i + j) = oracle2 (i + j)) :
    genLoop nkeys oracle fuel i = genLoop nkeys oracle2 fuel i := by
  induction fuel generalizing i with
  | zero => rfl
  | succ fuel ih =>
    have h0 : oracle i = oracle2 i := by simpa using h 0 (by omega)
    simp only [genLoop, ← h0]
    cases oracle i with
    | ok raw => rfl
    | filtered => rfl
    | otherErr => rfl
    | quotaErr =>
      show (if nkeys ≤ 1 then none else genLoop nkeys oracle fuel (i + 1)) =
        (if nkeys ≤ 1 then none else genLoop nkeys oracle2 fuel (i + 1))
      by_cases hn : nkeys ≤ 1
      · rw [if_pos hn, if_pos hn]
      · rw [if_neg hn, if_neg hn]
        refine ih (i + 1) (fun j hj => ?_)
        have e : i + 1 + j = i + (j + 1) := by omega
        rw [e]
        exact h (j + 1) (by omega)

/-- Every `/honeypot` turn that reaches the engine reports status
"success", whatever happened inside. -/
theorem honeypotTurn_status (c : Bool) (r : String) (send : Bool) (msg : Msg)
    (s : SessionData) : (honeypotTurn c r send msg s).status = "success" := by
  unfold honeypotTurn
  dsimp only
  repeat' split
  all_goals rfl

/-- C8: whenever reply generation cannot obtain a usable model reply —
every attempt a quota error (after rotating through at most
`nkeys + 1` attempts: the loop never consults the oracle beyond that, the
last conjunct), or a non-quota error on the first attempt (which aborts
retrying), or a content-safety rejection — `generate_agent_response`
returns `get_fallback_response`, a member of the current 7-entry stage
pool, and the turn built on that reply still reports status "success":
the failure is never surfaced. -/
theorem c8_generation_failure_fallback (nkeys rand : Nat)
    (oracle oracle2 : Nat → AttemptResult) (history : List Msg) :
    ((∀ i, oracle i = AttemptResult.quotaErr) ∨
        oracle 0 = AttemptResult.otherErr ∨ oracle 0 = AttemptResult.filtered →
      generate_agent_response nkeys oracle rand history =
          get_fallback_response rand (scammerCount history) ∧
      generate_agent_response nkeys oracle rand history ∈
          fallbackPool (scammerCount history)) ∧
    (fallbackPool (scammerCount history)).length = 7 ∧
    (∀ (c send : Bool) (msg : Msg) (s : SessionData),
      (honeypotTurn c (generate_agent_response nkeys oracle rand history) send msg
        s).status = "success") ∧
    ((∀ i, i < nkeys + 1 → oracle i = oracle2 i) →
      generate_agent_response nkeys oracle rand history =
        generate_agent_response nkeys oracle2 rand history) := by
  refine ⟨fun hfail => ?_, fallbackPool_length _,
    fun c send msg s => honeypotTurn_status _ _ _ _ _, fun hagree => ?_⟩
  · have hnone : genLoop nkeys oracle (nkeys + 1) 0 = none := by
      rcases hfail with hq | ho | hf
      · exact genLoop_quota_none nkeys oracle hq _ 0
      · simp only [genLoop, ho]
      · simp only [genLoop, hf]
    have hmain : generate_agent_response nkeys oracle rand history =
        get_fallback_response rand (scammerCount history) := by
      unfold generate_agent_response
      rw [hnone]
    exact ⟨hmain, hmain ▸ get_fallback_mem rand (scammerCount history)⟩
  · unfold generate_agent_response
    rw [genLoop_congr nkeys oracle oracle2 (nkeys + 1) 0
      (fun j hj => by simpa using hagree j hj)]

/-- Witness for C8: with 2 keys and every attempt quota-limited the reply
is a stage-1 pool entry, and an oracle differing only from the 4th attempt
on gives the same reply (at most `nkeys + 1 = 3` attempts are made). -/
theorem c8_generation_failure_fallback_witness :
    ((∀ i : Nat, (fun _ : Nat => AttemptResult.quotaErr) i = AttemptResult.quotaErr) ∧
      generate_agent_response 2 (fun _ => AttemptResult.quotaErr) 0
          [{ sender := "scammer", text := "pay now" }] =
        get_fallback_response 0 1 ∧
      generate_agent_response 2 (fun _ => AttemptResult.quotaErr) 0
          [{ sender := "scammer", text := "pay now" }] ∈ fallbackPool 1) ∧
    (fallbackPool 1).length = 7 ∧
    ((∀ i : Nat, i < 2 + 1 →
        (fun j : Nat => if j < 3 then AttemptResult.quotaErr
          else AttemptResult.ok "thanks") i = (fun _ : Nat => AttemptResult.quotaErr) i) ∧
      generate_agent_response 2
          (fun j => if j < 3 then AttemptResult.quotaErr else AttemptResult.ok "thanks") 0
          [{ sender := "scammer", text := "pay now" }] =
        generate_agent_response 2 (fun _ => AttemptResult.quotaErr) 0
          [{ sender := "scammer", text := "pay now" }]) :=
  ⟨⟨fun _ => rfl,
    ((c8_generation_failure_fallback 2 0 (fun _ => AttemptResult.quotaErr)
        (fun _ => AttemptResult.quotaErr) [{ sender := "scammer", text := "pay now" }]).1
      (Or.inl fun _ => rfl)).1,
    ((c8_generation_failure_fallback 2 0 (fun _ => AttemptResult.quotaErr)
        (fun _ => AttemptResult.quotaErr) [{ sender := "scammer", text := "pay now" }]).1
      (Or.inl fun _ => rfl)).2⟩,
   (c8_generation_failure_fallback 2 0 (fun _ => AttemptResult.quotaErr)
      (fun _ => AttemptResult.quotaErr) [{ sender := "scammer", text := "pay now" }]).2.1,
   ⟨fun i hi => by simp [hi],
    (c8_generation_failure_fallback 2 0
        (fun j => if j < 3 then AttemptResult.quotaErr else AttemptResult.ok "thanks")
        (fun _ => AttemptResult.quotaErr)
        [{ sender := "scammer", text := "pay now" }]).2.2.2
      (fun i hi => by simp [hi])⟩⟩

end ScamHoneypot
